import Mathlib

/-!
Verification of the geometric core of `wojtekmal_gen_in.cpp`, a randomized
generator of "paper folding" test inputs.  Double-precision arithmetic is
embedded as exact real arithmetic; the Mersenne-Twister random engine is
abstracted as streams of raw draws; the output file is modelled as the list
of records written so far.
-/

namespace Origami

noncomputable section

/-- `DANGER_EPS` from the source: minimal safe distance from a feature. -/
def DANGER_EPS : ℝ := 0.05

/-- Numeric zero threshold from the source. -/
def ZERO_TOLERANCE : ℝ := 1e-9

/-- Maximal number of attempts per retry loop. -/
def MAX_TRIES : ℕ := 100

/-- `struct Point { double x, y; }`. -/
@[ext]
structure Point where
  x : ℝ
  y : ℝ

/-- `struct Line { Point p1, p2; }`. -/
structure Line where
  p1 : Point
  p2 : Point

/-- `struct Circle { Point c; double r; }`. -/
structure Circle where
  c : Point
  r : ℝ

/-- `struct SheetGeometry`: the features visible on one sheet. -/
structure SheetGeometry where
  points : List Point
  lines : List Line
  circles : List Circle

/-- `distSq(p1, p2)` from the source. -/
def distSq (p1 p2 : Point) : ℝ :=
  (p1.x - p2.x) * (p1.x - p2.x) + (p1.y - p2.y) * (p1.y - p2.y)

/-- `dist(p1, p2) = sqrt(distSq(p1, p2))` from the source. -/
def dist (p1 p2 : Point) : ℝ := Real.sqrt (distSq p1 p2)

/-- The quantity `len_sq = C*C + D*D` computed in `distPointLine` and
`reflectPoint`, where `C, D` are the coordinates of `l.p2 - l.p1`. -/
def lenSq (l : Line) : ℝ :=
  (l.p2.x - l.p1.x) * (l.p2.x - l.p1.x) + (l.p2.y - l.p1.y) * (l.p2.y - l.p1.y)

/-- The scalar projection `param = dot / len_sq` computed in
`distPointLine` and `reflectPoint`. -/
def linParam (p : Point) (l : Line) : ℝ :=
  ((p.x - l.p1.x) * (l.p2.x - l.p1.x) + (p.y - l.p1.y) * (l.p2.y - l.p1.y)) / lenSq l

/-- The projection foot `(xx, yy)` computed in `distPointLine` and
`reflectPoint`. -/
def footPoint (p : Point) (l : Line) : Point :=
  ⟨l.p1.x + linParam p l * (l.p2.x - l.p1.x),
   l.p1.y + linParam p l * (l.p2.y - l.p1.y)⟩

/-- `distPointLine(p, l)` from the source: distance from `p` to the infinite
line through `l.p1` and `l.p2`, falling back to `dist(p, l.p1)` when the
line is degenerate. -/
def distPointLine (p : Point) (l : Line) : ℝ :=
  if lenSq l < ZERO_TOLERANCE then dist p l.p1
  else dist p (footPoint p l)

/-- `reflectPoint(p, l)` from the source: mirror image of `p` across the
infinite line through `l.p1` and `l.p2`; identity on a degenerate line. -/
def reflectPoint (p : Point) (l : Line) : Point :=
  if lenSq l < ZERO_TOLERANCE then p
  else ⟨2 * (footPoint p l).x - p.x, 2 * (footPoint p l).y - p.y⟩

/-- `isSafePoint(p, geom)` from the source, as a predicate: each loop
returns `false` exactly when some feature's distance lies strictly inside
the band `(ZERO_TOLERANCE, DANGER_EPS)`. -/
def isSafePoint (p : Point) (geom : SheetGeometry) : Prop :=
  (∀ pt ∈ geom.points,
    ¬(dist p pt > ZERO_TOLERANCE ∧ dist p pt < DANGER_EPS)) ∧
  (∀ l ∈ geom.lines,
    ¬(distPointLine p l > ZERO_TOLERANCE ∧ distPointLine p l < DANGER_EPS)) ∧
  (∀ c ∈ geom.circles,
    ¬(|dist p c.c - c.r| > ZERO_TOLERANCE ∧ |dist p c.c - c.r| < DANGER_EPS))

/-- `isSafeFold(l, geom)` from the source, as a predicate: existing points
must clear the candidate crease, and every circle's center distance and
tangency gap must avoid the ambiguous band. -/
def isSafeFold (l : Line) (geom : SheetGeometry) : Prop :=
  (∀ pt ∈ geom.points,
    ¬(distPointLine pt l > ZERO_TOLERANCE ∧ distPointLine pt l < DANGER_EPS)) ∧
  (∀ c ∈ geom.circles,
    ¬(distPointLine c.c l > ZERO_TOLERANCE ∧ distPointLine c.c l < DANGER_EPS) ∧
    ¬(|distPointLine c.c l - c.r| > ZERO_TOLERANCE ∧
      |distPointLine c.c l - c.r| < DANGER_EPS))

/-- The mathematical notion the spec refers to: `p` lies exactly on the
infinite line through `l`'s two defining points. -/
def onLine (p : Point) (l : Line) : Prop :=
  ∃ t : ℝ, p.x = l.p1.x + t * (l.p2.x - l.p1.x) ∧
           p.y = l.p1.y + t * (l.p2.y - l.p1.y)

/-- The `std::mt19937` engine, abstracted: a fixed stream of raw
nonnegative-integer draws, a fixed stream of raw real draws intended in
`[0, 1)`, and the positions of the next unread element of each. -/
structure RandState where
  ints : ℕ → ℕ
  reals : ℕ → ℝ
  ipos : ℕ
  rpos : ℕ

/-- Read one raw integer draw from the engine. -/
def nextInt (s : RandState) : ℕ × RandState :=
  (s.ints s.ipos, ⟨s.ints, s.reals, s.ipos + 1, s.rpos⟩)

/-- Read one raw real draw (intended in `[0, 1)`) from the engine. -/
def nextReal (s : RandState) : ℝ × RandState :=
  (s.reals s.rpos, ⟨s.ints, s.reals, s.ipos, s.rpos + 1⟩)

/-- `std::uniform_int_distribution<int>(lo, hi)` applied to the engine. -/
def drawIntRange (lo hi : ℕ) (s : RandState) : ℕ × RandState :=
  (lo + (nextInt s).1 % (hi + 1 - lo), (nextInt s).2)

/-- `std::uniform_real_distribution<double>(lo, hi)` applied to the engine:
a raw unit draw scaled affinely onto `[lo, hi)`. -/
def drawReal (lo hi : ℝ) (s : RandState) : ℝ × RandState :=
  (lo + (hi - lo) * (nextReal s).1, (nextReal s).2)

/-- One line of the output file; the fixed-point text formatting is
excluded as I/O glue, so records carry the numeric payload. -/
inductive OutLine where
  | header (n q : ℕ)
  | rect (x1 y1 x2 y2 : ℝ)
  | circ (x y r : ℝ)
  | fold (k : ℕ) (x1 y1 x2 y2 : ℝ)
  | query (k : ℕ) (x y : ℝ)

/-- The empty sentinel geometry stored at sheet index `0`. -/
def emptyGeom : SheetGeometry := ⟨[], [], []⟩

/-- A query point from two `coord_dist` draws. -/
def randomPoint (s : RandState) : Point × RandState :=
  let d1 := drawReal (-10) 10 s
  let d2 := drawReal (-10) 10 d1.2
  (⟨d1.1, d2.1⟩, d2.2)

/-- Fold-line strategy (a): two fully random points from four
`coord_dist` draws. -/
def randomLine (s : RandState) : Line × RandState :=
  let d1 := randomPoint s
  let d2 := randomPoint d1.2
  (⟨d1.1, d2.1⟩, d2.2)

open Classical in
/-- The fold-line construction of `generate_test` (source lines 211-234):
strategy 0 or a source sheet without points gives two random points;
strategy 1 gives an existing point plus a unit direction; strategy 2 gives
a tangent to an existing circle, falling back to two random points when the
source sheet has no circles. -/
def chooseFoldLine (base : SheetGeometry) (strategy : ℕ) (s : RandState) :
    Line × RandState :=
  if strategy = 0 ∨ base.points = [] then randomLine s
  else if strategy = 1 then
    let di := drawIntRange 0 (base.points.length - 1) s
    let p := base.points.getD di.1 ⟨0, 0⟩
    let da := drawReal 0 (2 * Real.pi) di.2
    (⟨p, ⟨p.x + Real.cos da.1, p.y + Real.sin da.1⟩⟩, da.2)
  else if base.circles = [] then randomLine s
  else
    let di := drawIntRange 0 (base.circles.length - 1) s
    let c := base.circles.getD di.1 ⟨⟨0, 0⟩, 0⟩
    let da := drawReal 0 (2 * Real.pi) di.2
    (⟨⟨c.c.x + c.r * Real.cos da.1, c.c.y + c.r * Real.sin da.1⟩,
      ⟨c.c.x + c.r * Real.cos da.1 - Real.sin da.1,
       c.c.y + c.r * Real.sin da.1 + Real.cos da.1⟩⟩, da.2)

/-- Committing an accepted fold (source lines 239-245): copy the base
geometry, append the reflection of every point, line and circle across the
fold line, then append the fold line itself as a new `Line` feature. -/
def foldGeometry (base : SheetGeometry) (fl : Line) : SheetGeometry :=
  ⟨base.points ++ base.points.map (fun p => reflectPoint p fl),
   (base.lines ++
     base.lines.map (fun l => ⟨reflectPoint l.p1 fl, reflectPoint l.p2 fl⟩)) ++ [fl],
   base.circles ++ base.circles.map (fun c => ⟨reflectPoint c.c fl, c.r⟩)⟩

/-- The rectangle branch (`type == 0`) of the sheet loop: corners from two
`coord_dist` and two `size_dist` draws; always accepted. -/
def buildRect (s : RandState) : SheetGeometry × OutLine × RandState :=
  let d1 := drawReal (-10) 10 s
  let d2 := drawReal (-10) 10 d1.2
  let d3 := drawReal 1 5 d2.2
  let d4 := drawReal 1 5 d3.2
  (⟨[⟨d1.1, d2.1⟩, ⟨d1.1 + d3.1, d2.1⟩, ⟨d1.1 + d3.1, d2.1 + d4.1⟩,
     ⟨d1.1, d2.1 + d4.1⟩],
    [⟨⟨d1.1, d2.1⟩, ⟨d1.1 + d3.1, d2.1⟩⟩,
     ⟨⟨d1.1 + d3.1, d2.1⟩, ⟨d1.1 + d3.1, d2.1 + d4.1⟩⟩,
     ⟨⟨d1.1 + d3.1, d2.1 + d4.1⟩, ⟨d1.1, d2.1 + d4.1⟩⟩,
     ⟨⟨d1.1, d2.1 + d4.1⟩, ⟨d1.1, d2.1⟩⟩],
    []⟩,
   OutLine.rect d1.1 d2.1 (d1.1 + d3.1) (d2.1 + d4.1), d4.2)

/-- The circle branch (`type == 1`) of the sheet loop: the center is also
recorded as a `Point` feature; always accepted. -/
def buildCircle (s : RandState) : SheetGeometry × OutLine × RandState :=
  let d1 := drawReal (-10) 10 s
  let d2 := drawReal (-10) 10 d1.2
  let d3 := drawReal 1 5 d2.2
  (⟨[⟨d1.1, d2.1⟩], [], [⟨⟨d1.1, d2.1⟩, d3.1⟩]⟩,
   OutLine.circ d1.1 d2.1 d3.1, d3.2)

open Classical in
/-- The fold branch (`type == 2`) of the sheet loop: pick a source sheet,
a strategy and a candidate line; reject a degenerate candidate (endpoints
coinciding within tolerance) or one `isSafeFold` refuses, otherwise commit
`foldGeometry` and emit the `Z` record. -/
def attemptFold (i : ℕ) (sheets : List SheetGeometry) (s : RandState) :
    Option (SheetGeometry × OutLine) × RandState :=
  let dk := drawIntRange 1 (i - 1) s
  let base := sheets.getD dk.1 emptyGeom
  let dstrat := drawIntRange 0 2 dk.2
  let dfl := chooseFoldLine base dstrat.1 dstrat.2
  if distSq (dfl.1).p1 (dfl.1).p2 < ZERO_TOLERANCE then (none, dfl.2)
  else if isSafeFold dfl.1 base then
    (some (foldGeometry base dfl.1,
           OutLine.fold dk.1 (dfl.1).p1.x (dfl.1).p1.y (dfl.1).p2.x (dfl.1).p2.y),
     dfl.2)
  else (none, dfl.2)

/-- One iteration of the per-sheet try loop for sheet `i`: draw the sheet
kind (`rng() % 2` when `i = 1`, else `type_dist`; the source additionally
forces a fold drawn at `i = 1` back to a rectangle) and run the branch. -/
def attemptSheet (i : ℕ) (sheets : List SheetGeometry) (s : RandState) :
    Option (SheetGeometry × OutLine) × RandState :=
  let dt := nextInt s
  let t0 := if i = 1 then dt.1 % 2 else dt.1 % 3
  let t := if t0 = 2 ∧ i = 1 then 0 else t0
  if t = 0 then
    let r := buildRect dt.2
    (some (r.1, r.2.1), r.2.2)
  else if t = 1 then
    let r := buildCircle dt.2
    (some (r.1, r.2.1), r.2.2)
  else attemptFold i sheets dt.2

open Classical in
/-- The query-point construction (source lines 272-279): strategy 0 or a
sheet without points gives a random coordinate; otherwise an existing
point of the sheet, verbatim. -/
def chooseQueryPoint (geom : SheetGeometry) (strategy : ℕ) (s : RandState) :
    Point × RandState :=
  if strategy = 0 ∨ geom.points = [] then randomPoint s
  else
    let di := drawIntRange 0 (geom.points.length - 1) s
    (geom.points.getD di.1 ⟨0, 0⟩, di.2)

open Classical in
/-- One iteration of the per-query try loop: draw a target sheet in `1..n`
and a strategy, build the point, accept iff `isSafePoint` holds. -/
def attemptQuery (n : ℕ) (sheets : List SheetGeometry) (s : RandState) :
    Option OutLine × RandState :=
  let dk := drawIntRange 1 n s
  let geom := sheets.getD dk.1 emptyGeom
  let dstrat := drawIntRange 0 2 dk.2
  let dp := chooseQueryPoint geom dstrat.1 dstrat.2
  if isSafePoint dp.1 geom then
    (some (OutLine.query dk.1 (dp.1).x (dp.1).y), dp.2)
  else (none, dp.2)

/-- The `for (try_count = 0; try_count < MAX_TRIES; ...)` retry loop,
generic in the attempted step; the third component counts the attempts
actually made. -/
def retryLoop {α : Type} (attempt : RandState → Option α × RandState) :
    ℕ → RandState → Option α × RandState × ℕ
  | 0, s => (none, s, 0)
  | n + 1, s =>
    match attempt s with
    | (some a, s1) => (some a, s1, 1)
    | (none, s1) =>
      match retryLoop attempt n s1 with
      | (r, s2, c) => (r, s2, c + 1)

/-- The sheet-generation loop: one retry-bounded attempt per remaining
sheet; the current sheet index is `sheets.length` (index `0` holds the
sentinel); each committed record is written to the file at once. -/
def generateSheetsAux : ℕ → List SheetGeometry → List OutLine → RandState →
    Option (List SheetGeometry × RandState) × List OutLine
  | 0, sheets, file, s => (some (sheets, s), file)
  | m + 1, sheets, file, s =>
    match retryLoop (attemptSheet sheets.length sheets) MAX_TRIES s with
    | (some gr, s1, _) => generateSheetsAux m (sheets ++ [gr.1]) (file ++ [gr.2]) s1
    | (none, _, _) => (none, file)

/-- The query-generation loop, retry-bounded per query. -/
def generateQueriesAux (n : ℕ) (sheets : List SheetGeometry) :
    ℕ → List OutLine → RandState → Option RandState × List OutLine
  | 0, file, s => (some s, file)
  | m + 1, file, s =>
    match retryLoop (attemptQuery n sheets) MAX_TRIES s with
    | (some rcd, s1, _) => generateQueriesAux n sheets m (file ++ [rcd]) s1
    | (none, _, _) => (none, file)

/-- `generate_test(path, rng, n, q)`: the success flag together with the
content written to the sink up to the moment the function returns — the
header first, then one record per committed sheet and accepted query. -/
def generate_test (n q : ℕ) (s : RandState) : Bool × List OutLine :=
  match generateSheetsAux n [emptyGeom] [OutLine.header n q] s with
  | (none, file) => (false, file)
  | (some (sheets, s1), file) =>
    match generateQueriesAux n sheets q file s1 with
    | (none, file1) => (false, file1)
    | (some _, file1) => (true, file1)

/-- The radius invariant the generator maintains: every stored circle's
radius lies in the closed interval `[1, 5]`. -/
def GoodRadii (g : SheetGeometry) : Prop :=
  ∀ c ∈ g.circles, 1 ≤ c.r ∧ c.r ≤ 5

/-- The raw real draws of an engine state lie in `[0, 1)`, as raw uniform
draws feeding `uniform_real_distribution` do. -/
def UnitReals (s : RandState) : Prop :=
  ∀ n, 0 ≤ s.reals n ∧ s.reals n < 1

/-- Scenario engine state for retry exhaustion: every raw integer draw is
`2` (so sheet 1 takes `2 % 2 = 0`, a rectangle, and every later sheet takes
`2 % 3 = 2`, a fold) and every raw real draw is `1/2`, so the two fold-line
points always coincide and every fold attempt is rejected. -/
def failState : RandState := ⟨fun _ => 2, fun _ => 1 / 2, 0, 0⟩

/-- The sheet committed first under `failState`: the rectangle with corners
`(0, 0)`–`(3, 3)`. -/
def demoRect : SheetGeometry :=
  ⟨[⟨0, 0⟩, ⟨3, 0⟩, ⟨3, 3⟩, ⟨0, 3⟩],
   [⟨⟨0, 0⟩, ⟨3, 0⟩⟩, ⟨⟨3, 0⟩, ⟨3, 3⟩⟩, ⟨⟨3, 3⟩, ⟨0, 3⟩⟩, ⟨⟨0, 3⟩, ⟨0, 0⟩⟩],
   []⟩

/-- The engine state reached after committing `demoRect` under `failState`:
one integer draw and four real draws consumed. -/
def failState1 : RandState := ⟨fun _ => 2, fun _ => 1 / 2, 1, 4⟩

/-- Scenario engine state whose first sheet-2 attempt commits a fold: the
four coordinate draws give the distinct points `(-10, -10)` and `(0, 0)`. -/
def foldRunState : RandState :=
  ⟨fun _ => 2, fun n => if n < 2 then 0 else 1 / 2, 0, 0⟩

/-- Scenario engine state committing a circle as sheet 1: center `(0, 0)`,
radius `1 + 4 * (1/2) = 3`. -/
def circleState : RandState := ⟨fun _ => 1, fun _ => 1 / 2, 0, 0⟩

/-- The sheet committed by a circle draw with raw reals `1/2`: center point
`(0, 0)` recorded as a `Point` feature, circle of radius `3`. -/
def circleSheet : SheetGeometry := ⟨[⟨0, 0⟩], [], [⟨⟨0, 0⟩, 3⟩]⟩

/-- Raw real stream for the query-exhaustion scenario: the first three
draws (`1/2`) build `circleSheet`; afterwards the draws at odd positions
give `x = 1/100` and the ones at even positions give `y = 0`, so every
query point lands at `(1/100, 0)` — inside the ambiguous band around the
stored center point. -/
def mixedReals : ℕ → ℝ :=
  fun n => if n < 3 then 1 / 2 else if n % 2 = 1 then 1001 / 2000 else 1 / 2

/-- Scenario engine state for query-retry exhaustion: every raw integer
draw is `3` (`3 % 2 = 1`: sheet 1 is a circle; `3 % 3 = 0`: every query
uses the random-point strategy), reals from `mixedReals`. -/
def mixedState : RandState := ⟨fun _ => 3, mixedReals, 0, 0⟩

/-- An arbitrary concrete engine state. -/
def zeroState : RandState := ⟨fun _ => 0, fun _ => 0, 0, 0⟩

end

/-- A real quantity avoids the ambiguous band iff it is at most
`ZERO_TOLERANCE` or at least `DANGER_EPS`. -/
theorem not_band_iff (d : ℝ) :
    ¬(d > ZERO_TOLERANCE ∧ d < DANGER_EPS) ↔
      (d ≤ ZERO_TOLERANCE ∨ DANGER_EPS ≤ d) := by
  constructor
  · intro h
    rcases le_or_lt d ZERO_TOLERANCE with h1 | h1
    · exact Or.inl h1
    · rcases le_or_lt DANGER_EPS d with h2 | h2
      · exact Or.inr h2
      · exact absurd ⟨h1, h2⟩ h
  · rintro (h1 | h1) ⟨hb1, hb2⟩
    · exact absurd h1 (not_le.mpr hb1)
    · exact absurd h1 (not_le.mpr hb2)

/-- C1: `isSafePoint(p, g)` holds iff every stored point's Euclidean
distance, every stored line's point-to-infinite-line distance, and every
stored circle's boundary distance `|dist(p, center) - r|` is either
`≤ ZERO_TOLERANCE` or `≥ DANGER_EPS` — never strictly between. -/
theorem isSafePoint_iff_clearance (p : Point) (g : SheetGeometry) :
    isSafePoint p g ↔
      ((∀ pt ∈ g.points,
          dist p pt ≤ ZERO_TOLERANCE ∨ DANGER_EPS ≤ dist p pt) ∧
       (∀ l ∈ g.lines,
          distPointLine p l ≤ ZERO_TOLERANCE ∨ DANGER_EPS ≤ distPointLine p l) ∧
       (∀ c ∈ g.circles,
          |dist p c.c - c.r| ≤ ZERO_TOLERANCE ∨
            DANGER_EPS ≤ |dist p c.c - c.r|)) := by
  unfold isSafePoint
  constructor
  · rintro ⟨h1, h2, h3⟩
    exact ⟨fun pt hpt => (not_band_iff _).mp (h1 pt hpt),
           fun l hl => (not_band_iff _).mp (h2 l hl),
           fun c hc => (not_band_iff _).mp (h3 c hc)⟩
  · rintro ⟨h1, h2, h3⟩
    exact ⟨fun pt hpt => (not_band_iff _).mpr (h1 pt hpt),
           fun l hl => (not_band_iff _).mpr (h2 l hl),
           fun c hc => (not_band_iff _).mpr (h3 c hc)⟩

/-- C2: `isSafeFold(l, g)` holds iff every stored point clears the fold
line and, for every stored circle, both the center distance and the
tangency gap avoid the ambiguous band; the stored `Line` features of `g`
impose no condition on the fold line. -/
theorem isSafeFold_iff_clearance (l : Line) (g : SheetGeometry) :
    (isSafeFold l g ↔
      ((∀ pt ∈ g.points,
          distPointLine pt l ≤ ZERO_TOLERANCE ∨ DANGER_EPS ≤ distPointLine pt l) ∧
       (∀ c ∈ g.circles,
          (distPointLine c.c l ≤ ZERO_TOLERANCE ∨
            DANGER_EPS ≤ distPointLine c.c l) ∧
          (|distPointLine c.c l - c.r| ≤ ZERO_TOLERANCE ∨
            DANGER_EPS ≤ |distPointLine c.c l - c.r|)))) ∧
    (∀ ls : List Line, isSafeFold l ⟨g.points, ls, g.circles⟩ ↔ isSafeFold l g) := by
  constructor
  · unfold isSafeFold
    constructor
    · rintro ⟨h1, h2⟩
      refine ⟨fun pt hpt => (not_band_iff _).mp (h1 pt hpt), fun c hc => ?_⟩
      exact ⟨(not_band_iff _).mp (h2 c hc).1, (not_band_iff _).mp (h2 c hc).2⟩
    · rintro ⟨h1, h2⟩
      refine ⟨fun pt hpt => (not_band_iff _).mpr (h1 pt hpt), fun c hc => ?_⟩
      exact ⟨(not_band_iff _).mpr (h2 c hc).1, (not_band_iff _).mpr (h2 c hc).2⟩
  · intro ls
    unfold isSafeFold
    exact Iff.rfl

/-- A squared Euclidean distance is nonnegative. -/
theorem distSq_nonneg (p q : Point) : 0 ≤ distSq p q :=
  add_nonneg (mul_self_nonneg _) (mul_self_nonneg _)

/-- C3: reflection across a fixed non-degenerate line (squared length at
least `ZERO_TOLERANCE`) is an involution: `reflectPoint(reflectPoint(p, l), l) = p`
exactly, over the reals. -/
theorem reflectPoint_involution (p : Point) (l : Line)
    (h : ZERO_TOLERANCE ≤ lenSq l) :
    reflectPoint (reflectPoint p l) l = p := by
  have hpos : (0 : ℝ) < lenSq l :=
    lt_of_lt_of_le (by norm_num [ZERO_TOLERANCE]) h
  have hif : ¬ lenSq l < ZERO_TOLERANCE := not_lt.mpr h
  have hne : lenSq l ≠ 0 := ne_of_gt hpos
  simp only [reflectPoint, if_neg hif]
  obtain ⟨px, py⟩ := p
  obtain ⟨⟨ax, ay⟩, ⟨bx, cy⟩⟩ := l
  simp only [lenSq] at hne
  simp only [footPoint, linParam, lenSq, Point.mk.injEq]
  constructor <;> (field_simp ; ring)

/-- C3 witness: reflecting the point `(0, 1)` twice across the line through
`(0, 0)` and `(1, 0)` gives back `(0, 1)`; the line is non-degenerate. -/
theorem reflectPoint_involution_witness :
    ZERO_TOLERANCE ≤ lenSq ⟨⟨0, 0⟩, ⟨1, 0⟩⟩ ∧
    reflectPoint (reflectPoint ⟨0, 1⟩ ⟨⟨0, 0⟩, ⟨1, 0⟩⟩) ⟨⟨0, 0⟩, ⟨1, 0⟩⟩ = ⟨0, 1⟩ :=
  ⟨by norm_num [ZERO_TOLERANCE, lenSq],
   reflectPoint_involution ⟨0, 1⟩ ⟨⟨0, 0⟩, ⟨1, 0⟩⟩
     (by norm_num [ZERO_TOLERANCE, lenSq])⟩

/-- C4 counterexample: the point `(0, 1e-10)` is within `ZERO_TOLERANCE` of
the non-degenerate line through `(0,0)` and `(1,0)` yet does not lie exactly
on that infinite line, so "zero within ZERO_TOLERANCE" does not imply exact
incidence. -/
theorem distPointLine_tolerance_not_exact :
    distPointLine ⟨0, 1e-10⟩ ⟨⟨0, 0⟩, ⟨1, 0⟩⟩ ≤ ZERO_TOLERANCE ∧
    ¬ onLine ⟨0, 1e-10⟩ ⟨⟨0, 0⟩, ⟨1, 0⟩⟩ ∧
    ZERO_TOLERANCE ≤ lenSq ⟨⟨0, 0⟩, ⟨1, 0⟩⟩ := by
  refine ⟨?_, ?_, by norm_num [ZERO_TOLERANCE, lenSq]⟩
  · have hfoot : footPoint ⟨0, 1e-10⟩ ⟨⟨0, 0⟩, ⟨1, 0⟩⟩ = ⟨0, 0⟩ := by
      simp only [footPoint, linParam, lenSq, Point.mk.injEq]
      norm_num
    rw [distPointLine, if_neg (by norm_num [lenSq, ZERO_TOLERANCE]), hfoot, dist]
    have hsq : distSq ⟨0, (1e-10 : ℝ)⟩ ⟨0, 0⟩ = (1e-10 : ℝ) * (1e-10 : ℝ) := by
      norm_num [distSq]
    rw [hsq, Real.sqrt_mul_self (by norm_num)]
    norm_num [ZERO_TOLERANCE]
  · rintro ⟨t, hx, hy⟩
    have h0 : (1e-10 : ℝ) = 0 + t * ((0 : ℝ) - 0) := hy
    norm_num at h0

/-- C4 as amended: for a non-degenerate line, `distPointLine(p, l)` is
exactly zero iff `p` lies exactly on the infinite line through `l`'s two
defining points (no clamping to the segment); points merely within
`ZERO_TOLERANCE` of the line need not lie on it. -/
theorem distPointLine_eq_zero_iff_onLine (p : Point) (l : Line)
    (h : ZERO_TOLERANCE ≤ lenSq l) :
    distPointLine p l = 0 ↔ onLine p l := by
  have hpos : (0 : ℝ) < lenSq l :=
    lt_of_lt_of_le (by norm_num [ZERO_TOLERANCE]) h
  have hne : lenSq l ≠ 0 := ne_of_gt hpos
  have hif : ¬ lenSq l < ZERO_TOLERANCE := not_lt.mpr h
  rw [distPointLine, if_neg hif, dist, Real.sqrt_eq_zero (distSq_nonneg _ _)]
  constructor
  · intro h0
    have hz := (add_eq_zero_iff_of_nonneg (mul_self_nonneg _)
      (mul_self_nonneg _)).mp h0
    have hx : p.x = (footPoint p l).x := by
      have := mul_self_eq_zero.mp hz.1
      have := sub_eq_zero.mp this
      exact this
    have hy : p.y = (footPoint p l).y := by
      have := mul_self_eq_zero.mp hz.2
      have := sub_eq_zero.mp this
      exact this
    exact ⟨linParam p l, hx, hy⟩
  · rintro ⟨t, hx, hy⟩
    have hne2 : (l.p2.x - l.p1.x) * (l.p2.x - l.p1.x) +
        (l.p2.y - l.p1.y) * (l.p2.y - l.p1.y) ≠ 0 := by
      rw [lenSq] at hne
      exact hne
    have hparam : linParam p l = t := by
      rw [linParam, lenSq, hx, hy, div_eq_iff hne2]
      ring
    rw [distSq, footPoint, hparam]
    rw [hx, hy]
    ring

/-- C4 amended-claim witness: the point `(0, 0)` on the non-degenerate line
through `(0, 0)` and `(1, 0)` instantiates the exact-incidence equivalence. -/
theorem distPointLine_eq_zero_iff_onLine_witness :
    ZERO_TOLERANCE ≤ lenSq ⟨⟨0, 0⟩, ⟨1, 0⟩⟩ ∧
    (distPointLine ⟨0, 0⟩ ⟨⟨0, 0⟩, ⟨1, 0⟩⟩ = 0 ↔
      onLine ⟨0, 0⟩ ⟨⟨0, 0⟩, ⟨1, 0⟩⟩) :=
  ⟨by norm_num [ZERO_TOLERANCE, lenSq],
   distPointLine_eq_zero_iff_onLine ⟨0, 0⟩ ⟨⟨0, 0⟩, ⟨1, 0⟩⟩
     (by norm_num [ZERO_TOLERANCE, lenSq])⟩

/-- C7: against a geometry holding one circle (center `(0,0)`, radius `1`),
the fold line through the center — along `(0,0)`–`(1,0)`, center distance
exactly `0` — is accepted by `isSafeFold`, while the parallel fold line at
distance `0.02` from the center (inside the `DANGER_EPS` band, above
`ZERO_TOLERANCE`) is rejected. -/
theorem isSafeFold_circle_center_scenarios :
    isSafeFold ⟨⟨0, 0⟩, ⟨1, 0⟩⟩ ⟨[], [], [⟨⟨0, 0⟩, 1⟩]⟩ ∧
    ¬ isSafeFold ⟨⟨0, 0.02⟩, ⟨1, 0.02⟩⟩ ⟨[], [], [⟨⟨0, 0⟩, 1⟩]⟩ := by
  have hd0 : distPointLine ⟨0, 0⟩ ⟨⟨0, 0⟩, ⟨1, 0⟩⟩ = 0 := by
    have hfoot : footPoint ⟨0, 0⟩ ⟨⟨0, 0⟩, ⟨1, 0⟩⟩ = ⟨0, 0⟩ := by
      simp only [footPoint, linParam, lenSq, Point.mk.injEq]
      norm_num
    rw [distPointLine, if_neg (by norm_num [lenSq, ZERO_TOLERANCE]), hfoot, dist]
    have hsq : distSq (⟨0, 0⟩ : Point) ⟨0, 0⟩ = 0 := by norm_num [distSq]
    rw [hsq, Real.sqrt_zero]
  have hd2 : distPointLine ⟨0, 0⟩ ⟨⟨0, 0.02⟩, ⟨1, 0.02⟩⟩ = 0.02 := by
    have hfoot : footPoint ⟨0, 0⟩ ⟨⟨0, 0.02⟩, ⟨1, 0.02⟩⟩ = ⟨0, 0.02⟩ := by
      simp only [footPoint, linParam, lenSq, Point.mk.injEq]
      norm_num
    rw [distPointLine, if_neg (by norm_num [lenSq, ZERO_TOLERANCE]), hfoot, dist]
    have hsq : distSq (⟨0, 0⟩ : Point) ⟨0, 0.02⟩ = (0.02 : ℝ) * (0.02 : ℝ) := by
      norm_num [distSq]
    rw [hsq, Real.sqrt_mul_self (by norm_num)]
  constructor
  · refine ⟨by simp, ?_⟩
    intro c hc
    simp only [List.mem_singleton] at hc
    subst hc
    simp only [hd0]
    constructor
    · rintro ⟨h1, _⟩
      norm_num [ZERO_TOLERANCE] at h1
    · rintro ⟨_, h2⟩
      norm_num [DANGER_EPS] at h2
  · rintro ⟨_, h2⟩
    have := (h2 ⟨⟨0, 0⟩, 1⟩ (by simp)).1
    rw [hd2] at this
    exact this ⟨by norm_num [ZERO_TOLERANCE], by norm_num [DANGER_EPS]⟩

/-- The two expressions the source computes for a segment's squared length
agree: `lenSq` of a line is `distSq` of its endpoints. -/
theorem lenSq_eq_distSq (l : Line) : lenSq l = distSq l.p1 l.p2 := by
  rw [lenSq, distSq]
  ring

/-- Component count of a committed fold: twice the source features, plus
the crease line. -/
theorem foldGeometry_length (b : SheetGeometry) (fl : Line) :
    (foldGeometry b fl).points.length = 2 * b.points.length ∧
    (foldGeometry b fl).lines.length = 2 * b.lines.length + 1 ∧
    (foldGeometry b fl).circles.length = 2 * b.circles.length := by
  refine ⟨?_, ?_, ?_⟩ <;> simp [foldGeometry] <;> omega

/-- Inversion of the fold branch: a committed fold came through both
guards, so the new sheet is `foldGeometry` of the recorded source sheet and
the recorded fold line, and that line's endpoints do not coincide within
tolerance. -/
theorem attemptFold_commit (i : ℕ) (sheets : List SheetGeometry) (s : RandState)
    (g : SheetGeometry) (k : ℕ) (x1 y1 x2 y2 : ℝ)
    (h : (attemptFold i sheets s).1 = some (g, OutLine.fold k x1 y1 x2 y2)) :
    g = foldGeometry (sheets.getD k emptyGeom) ⟨⟨x1, y1⟩, ⟨x2, y2⟩⟩ ∧
    ZERO_TOLERANCE ≤ distSq ⟨x1, y1⟩ ⟨x2, y2⟩ := by
  simp only [attemptFold] at h
  split_ifs at h with hdeg hsafe
  simp only [Option.some.injEq, Prod.mk.injEq, OutLine.fold.injEq] at h
  obtain ⟨hg, hk, hx1, hy1, hx2, hy2⟩ := h
  subst hk hx1 hy1 hx2 hy2
  exact ⟨hg.symm, not_lt.mp hdeg⟩

/-- Inversion of the sheet loop: a committed fold record can only come from
the fold branch. -/
theorem attemptSheet_fold_inv (i : ℕ) (sheets : List SheetGeometry) (s : RandState)
    (g : SheetGeometry) (k : ℕ) (x1 y1 x2 y2 : ℝ)
    (h : (attemptSheet i sheets s).1 = some (g, OutLine.fold k x1 y1 x2 y2)) :
    (attemptFold i sheets (nextInt s).2).1 = some (g, OutLine.fold k x1 y1 x2 y2) := by
  simp only [attemptSheet] at h
  split_ifs at h <;>
    first
      | exact h
      | simp [buildRect, buildCircle] at h

/-- C5: whenever the sheet loop commits a fold of source sheet `k`, the new
sheet's geometry is the source geometry plus the reflection of every source
point, line and circle across the fold line, plus the fold line itself as
one new `Line` feature — hence its feature counts are `2 ×` the source's,
with one extra line for the crease. -/
theorem fold_commit_geometry (i : ℕ) (sheets : List SheetGeometry) (s : RandState)
    (g : SheetGeometry) (k : ℕ) (x1 y1 x2 y2 : ℝ)
    (h : (attemptSheet i sheets s).1 = some (g, OutLine.fold k x1 y1 x2 y2)) :
    g = foldGeometry (sheets.getD k emptyGeom) ⟨⟨x1, y1⟩, ⟨x2, y2⟩⟩ ∧
    g.points.length = 2 * (sheets.getD k emptyGeom).points.length ∧
    g.lines.length = 2 * (sheets.getD k emptyGeom).lines.length + 1 ∧
    g.circles.length = 2 * (sheets.getD k emptyGeom).circles.length := by
  have h2 := attemptFold_commit i sheets (nextInt s).2 g k x1 y1 x2 y2
    (attemptSheet_fold_inv i sheets s g k x1 y1 x2 y2 h)
  refine ⟨h2.1, ?_, ?_, ?_⟩ <;> rw [h2.1]
  · exact (foldGeometry_length _ _).1
  · exact (foldGeometry_length _ _).2.1
  · exact (foldGeometry_length _ _).2.2

/-- C8: a fold line committed to a sheet (and emitted as a `Z` record) is
never degenerate: its endpoints do not coincide within tolerance, the
crease stored in the new sheet is that very line, and the degenerate-line
fallback guard `lenSq < ZERO_TOLERANCE` of `distPointLine`/`reflectPoint`
is false for it. -/
theorem fold_commit_nondegenerate (i : ℕ) (sheets : List SheetGeometry)
    (s : RandState) (g : SheetGeometry) (k : ℕ) (x1 y1 x2 y2 : ℝ)
    (h : (attemptSheet i sheets s).1 = some (g, OutLine.fold k x1 y1 x2 y2)) :
    ZERO_TOLERANCE ≤ distSq ⟨x1, y1⟩ ⟨x2, y2⟩ ∧
    (⟨⟨x1, y1⟩, ⟨x2, y2⟩⟩ : Line) ∈ g.lines ∧
    ¬ lenSq ⟨⟨x1, y1⟩, ⟨x2, y2⟩⟩ < ZERO_TOLERANCE := by
  have h2 := attemptFold_commit i sheets (nextInt s).2 g k x1 y1 x2 y2
    (attemptSheet_fold_inv i sheets s g k x1 y1 x2 y2 h)
  refine ⟨h2.2, ?_, ?_⟩
  · rw [h2.1]
    simp [foldGeometry]
  · rw [lenSq_eq_distSq]
    exact not_lt.mpr h2.2

/-- C10: with strategy 1 (point plus direction) drawn on a source sheet
without `Point` features, or strategy 2 (tangent to a circle) drawn on a
source sheet without `Circle` features, the fold-line construction silently
falls back to the fully-random-two-points construction; the query-point
construction likewise falls back to a random point whenever the target
sheet has no `Point` features. -/
theorem strategy_fallback (base g : SheetGeometry) (strat : ℕ) (s : RandState) :
    (base.points = [] → chooseFoldLine base 1 s = randomLine s) ∧
    (base.circles = [] → chooseFoldLine base 2 s = randomLine s) ∧
    (g.points = [] → chooseQueryPoint g strat s = randomPoint s) := by
  refine ⟨fun h => ?_, fun h => ?_, fun h => ?_⟩
  · rw [chooseFoldLine, if_pos (Or.inr h)]
  · rw [chooseFoldLine]
    by_cases hp : base.points = []
    · rw [if_pos (Or.inr hp)]
    · rw [if_neg (by simp [hp]), if_neg (by norm_num), if_pos h]
  · rw [chooseQueryPoint, if_pos (Or.inr h)]

/-- C10 witness: on the empty sentinel geometry the strategy-1 and
strategy-2 fold-line constructions and the existing-point query strategy
all reduce to the random constructions. -/
theorem strategy_fallback_witness :
    (emptyGeom.points = [] ∧ emptyGeom.circles = []) ∧
    chooseFoldLine emptyGeom 1 zeroState = randomLine zeroState ∧
    chooseFoldLine emptyGeom 2 zeroState = randomLine zeroState ∧
    chooseQueryPoint emptyGeom 1 zeroState = randomPoint zeroState :=
  ⟨⟨rfl, rfl⟩,
   (strategy_fallback emptyGeom emptyGeom 1 zeroState).1 rfl,
   (strategy_fallback emptyGeom emptyGeom 1 zeroState).2.1 rfl,
   (strategy_fallback emptyGeom emptyGeom 1 zeroState).2.2 rfl⟩

/-- A retry loop whose first attempt succeeds returns that result after one
attempt. -/
theorem retryLoop_first_success {α : Type} (attempt : RandState → Option α × RandState)
    (n : ℕ) (s : RandState) (a : α) (s1 : RandState)
    (h : attempt s = (some a, s1)) :
    retryLoop attempt (n + 1) s = (some a, s1, 1) := by
  rw [retryLoop, h]

/-- A retry loop over an attempt that fails from every state satisfying an
invariant returns nothing and makes exactly as many attempts as its
budget. -/
theorem retryLoop_all_fail {α : Type} (attempt : RandState → Option α × RandState)
    (P : RandState → Prop)
    (hstep : ∀ s, P s → (attempt s).1 = none ∧ P (attempt s).2) :
    ∀ (n : ℕ) (s : RandState), P s →
      (retryLoop attempt n s).1 = none ∧ (retryLoop attempt n s).2.2 = n ∧
      P (retryLoop attempt n s).2.1 := by
  intro n
  induction n with
  | zero => exact fun s hs => ⟨rfl, rfl, hs⟩
  | succ m ih =>
    intro s hs
    obtain ⟨h1, h2⟩ := hstep s hs
    rcases hA : attempt s with ⟨o, s1⟩
    rw [hA] at h1 h2
    simp only at h1
    subst h1
    rw [retryLoop, hA]
    have hm := ih s1 h2
    rcases hB : retryLoop attempt m s1 with ⟨r, s2, c⟩
    rw [hB] at hm
    simp only at hm
    simp only [hB]
    exact ⟨hm.1, by rw [hm.2.1], hm.2.2⟩

/-- Under `failState` the first sheet attempt commits the rectangle
`(0, 0)`–`(3, 3)` on its first try. -/
theorem attemptSheet_first_rect :
    attemptSheet 1 [emptyGeom] failState =
      (some (demoRect, OutLine.rect 0 0 3 3), failState1) := by
  simp only [attemptSheet, nextInt, failState, failState1, buildRect, drawReal,
    nextReal, demoRect]
  norm_num

/-- Under the constant streams of `failState`, every sheet-2 attempt picks
a fold of `demoRect` by the tangent strategy, falls back to two random
points that coincide at the origin, and is rejected as degenerate. -/
theorem attemptSheet_fail_step (a b : ℕ) :
    attemptSheet 2 [emptyGeom, demoRect] ⟨fun _ => 2, fun _ => 1 / 2, a, b⟩ =
      (none, ⟨fun _ => 2, fun _ => 1 / 2, a + 3, b + 4⟩) := by
  have hfl : chooseFoldLine demoRect 2 ⟨fun _ => 2, fun _ => 1 / 2, a + 3, b⟩ =
      (⟨⟨0, 0⟩, ⟨0, 0⟩⟩, ⟨fun _ => 2, fun _ => 1 / 2, a + 3, b + 4⟩) := by
    rw [chooseFoldLine, if_neg (by simp [demoRect]), if_neg (by norm_num),
      if_pos (show demoRect.circles = [] from rfl)]
    simp only [randomLine, randomPoint, drawReal, nextReal]
    norm_num [Nat.add_assoc]
  simp only [attemptSheet, attemptFold, nextInt, drawIntRange]
  norm_num [Nat.add_assoc]
  rw [hfl]
  rw [if_pos (by norm_num [distSq, ZERO_TOLERANCE])]

/-- From any state over the all-`2`s/all-`1/2` streams, the sheet-2 retry
loop exhausts its whole budget. -/
theorem sheet2_loop_all_fail (s : RandState) (hi : s.ints = fun _ => 2)
    (hr : s.reals = fun _ => 1 / 2) :
    (retryLoop (attemptSheet 2 [emptyGeom, demoRect]) MAX_TRIES s).1 = none ∧
    (retryLoop (attemptSheet 2 [emptyGeom, demoRect]) MAX_TRIES s).2.2 =
      MAX_TRIES := by
  have e2 := retryLoop_all_fail (attemptSheet 2 [emptyGeom, demoRect])
    (fun s => s.ints = (fun _ => 2) ∧ s.reals = (fun _ => 1 / 2))
    (fun s hs => by
      obtain ⟨si, sr, sa, sb⟩ := s
      simp only at hs
      rw [hs.1, hs.2]
      rw [attemptSheet_fail_step]
      exact ⟨rfl, rfl, rfl⟩)
    MAX_TRIES s ⟨hi, hr⟩
  exact ⟨e2.1, e2.2.1⟩

/-- Evaluation of the sheet stage of the retry-exhaustion scenario: sheet 1
commits the rectangle, every attempt at sheet 2 fails, and the stage stops
keeping exactly the content written so far. -/
theorem generateSheets_fail_run :
    generateSheetsAux 3 [emptyGeom] [OutLine.header 3 3] failState =
      (none, [OutLine.header 3 3, OutLine.rect 0 0 3 3]) := by
  have e1 : retryLoop (attemptSheet 1 [emptyGeom]) MAX_TRIES failState =
      (some (demoRect, OutLine.rect 0 0 3 3), failState1, 1) := by
    rw [show MAX_TRIES = 99 + 1 from rfl]
    exact retryLoop_first_success _ 99 _ _ _ attemptSheet_first_rect
  have e2 := (sheet2_loop_all_fail failState1 rfl rfl).1
  show generateSheetsAux (2 + 1) [emptyGeom] [OutLine.header 3 3] failState = _
  rw [generateSheetsAux]
  simp only [List.length_cons, List.length_nil, Nat.zero_add]
  rw [e1]
  show generateSheetsAux (1 + 1) [emptyGeom, demoRect]
    [OutLine.header 3 3, OutLine.rect 0 0 3 3] failState1 = _
  rw [generateSheetsAux]
  simp only [List.length_cons, List.length_nil, Nat.zero_add]
  rcases hB : retryLoop (attemptSheet (1 + 1) [emptyGeom, demoRect]) MAX_TRIES
    failState1 with ⟨o, s2, c⟩
  rw [show (1 + 1 : ℕ) = 2 from rfl] at hB
  rw [hB] at e2
  simp only at e2
  rw [e2]

/-- Evaluation of the full retry-exhaustion scenario: `generate_test` stops
with the failure flag and the partial content written so far. -/
theorem generate_test_fail_eval :
    generate_test 3 3 failState =
      (false, [OutLine.header 3 3, OutLine.rect 0 0 3 3]) := by
  rw [generate_test, generateSheets_fail_run]

/-- C6 counterexample: in the `n = 3` retry-exhaustion scenario the
generator does return failure, yet the sink is not empty — the header and
the first sheet's record were already written, so partial file content is
kept. -/
theorem generate_test_partial_output_kept :
    (generate_test 3 3 failState).1 = false ∧
    (generate_test 3 3 failState).2 ≠ [] := by
  rw [generate_test_fail_eval]
  exact ⟨rfl, by simp⟩

open Classical in
/-- Under `foldRunState` the sheet-2 attempt draws a fold of source sheet 1
with the tangent strategy, falls back to the random line through
`(-10, -10)` and `(0, 0)`, and commits it. -/
theorem attemptSheet_foldRun :
    attemptSheet 2 [emptyGeom, emptyGeom] foldRunState =
      (some (foldGeometry emptyGeom ⟨⟨-10, -10⟩, ⟨0, 0⟩⟩,
             OutLine.fold 1 (-10) (-10) 0 0),
       ⟨fun _ => 2, fun n => if n < 2 then 0 else 1 / 2, 3, 4⟩) := by
  have hfl : chooseFoldLine emptyGeom 2
      ⟨fun _ => 2, fun n => if n < 2 then 0 else 1 / 2, 3, 0⟩ =
      (⟨⟨-10, -10⟩, ⟨0, 0⟩⟩,
       ⟨fun _ => 2, fun n => if n < 2 then 0 else 1 / 2, 3, 4⟩) := by
    rw [chooseFoldLine, if_pos (Or.inr (show emptyGeom.points = [] from rfl))]
    simp only [randomLine, randomPoint, drawReal, nextReal]
    norm_num [Nat.add_assoc]
  have hsafe : isSafeFold ⟨⟨-10, -10⟩, ⟨0, 0⟩⟩ emptyGeom := by
    simp [isSafeFold, emptyGeom]
  have hfl2 : chooseFoldLine
      ([emptyGeom, emptyGeom].getD (1 + 2 % (2 - 1 + 1 - 1)) emptyGeom)
      (0 + 2 % (2 + 1 - 0))
      ⟨fun _ => 2, fun n => if n < 2 then 0 else 1 / 2, 0 + 1 + 1 + 1, 0⟩ =
      (⟨⟨-10, -10⟩, ⟨0, 0⟩⟩,
       ⟨fun _ => 2, fun n => if n < 2 then 0 else 1 / 2, 3, 4⟩) := hfl
  have hsafe2 : isSafeFold ⟨⟨-10, -10⟩, ⟨0, 0⟩⟩
      ([emptyGeom, emptyGeom].getD (1 + 2 % (2 - 1 + 1 - 1)) emptyGeom) := hsafe
  simp only [attemptSheet, attemptFold, nextInt, drawIntRange, foldRunState]
  norm_num [Nat.add_assoc]
  rw [hfl]
  simp only [hfl2]
  rw [if_neg (by norm_num [distSq, ZERO_TOLERANCE]), if_pos hsafe]

/-- First component of the committed fold run. -/
theorem attemptSheet_foldRun_fst :
    (attemptSheet 2 [emptyGeom, emptyGeom] foldRunState).1 =
      some (foldGeometry emptyGeom ⟨⟨-10, -10⟩, ⟨0, 0⟩⟩,
            OutLine.fold 1 (-10) (-10) 0 0) := by
  rw [attemptSheet_foldRun]

/-- C5 witness: the concrete committed fold under `foldRunState`
instantiates the committed-fold geometry equation and the doubled feature
counts. -/
theorem fold_commit_geometry_witness :
    (attemptSheet 2 [emptyGeom, emptyGeom] foldRunState).1 =
      some (foldGeometry emptyGeom ⟨⟨-10, -10⟩, ⟨0, 0⟩⟩,
            OutLine.fold 1 (-10) (-10) 0 0) ∧
    (foldGeometry emptyGeom ⟨⟨-10, -10⟩, ⟨0, 0⟩⟩ =
        foldGeometry ([emptyGeom, emptyGeom].getD 1 emptyGeom)
          ⟨⟨-10, -10⟩, ⟨0, 0⟩⟩ ∧
      (foldGeometry emptyGeom ⟨⟨-10, -10⟩, ⟨0, 0⟩⟩).points.length =
        2 * ([emptyGeom, emptyGeom].getD 1 emptyGeom).points.length ∧
      (foldGeometry emptyGeom ⟨⟨-10, -10⟩, ⟨0, 0⟩⟩).lines.length =
        2 * ([emptyGeom, emptyGeom].getD 1 emptyGeom).lines.length + 1 ∧
      (foldGeometry emptyGeom ⟨⟨-10, -10⟩, ⟨0, 0⟩⟩).circles.length =
        2 * ([emptyGeom, emptyGeom].getD 1 emptyGeom).circles.length) :=
  ⟨attemptSheet_foldRun_fst,
   fold_commit_geometry 2 [emptyGeom, emptyGeom] foldRunState
     (foldGeometry emptyGeom ⟨⟨-10, -10⟩, ⟨0, 0⟩⟩) 1 (-10) (-10) 0 0
     attemptSheet_foldRun_fst⟩

/-- C8 witness: the concrete committed fold under `foldRunState`
instantiates the non-degeneracy guarantees for an emitted fold line. -/
theorem fold_commit_nondegenerate_witness :
    (attemptSheet 2 [emptyGeom, emptyGeom] foldRunState).1 =
      some (foldGeometry emptyGeom ⟨⟨-10, -10⟩, ⟨0, 0⟩⟩,
            OutLine.fold 1 (-10) (-10) 0 0) ∧
    (ZERO_TOLERANCE ≤ distSq ⟨-10, -10⟩ ⟨0, 0⟩ ∧
      (⟨⟨-10, -10⟩, ⟨0, 0⟩⟩ : Line) ∈
        (foldGeometry emptyGeom ⟨⟨-10, -10⟩, ⟨0, 0⟩⟩).lines ∧
      ¬ lenSq ⟨⟨-10, -10⟩, ⟨0, 0⟩⟩ < ZERO_TOLERANCE) :=
  ⟨attemptSheet_foldRun_fst,
   fold_commit_nondegenerate 2 [emptyGeom, emptyGeom] foldRunState
     (foldGeometry emptyGeom ⟨⟨-10, -10⟩, ⟨0, 0⟩⟩) 1 (-10) (-10) 0 0
     attemptSheet_foldRun_fst⟩

/-- Choosing a fold line reads draws but never changes the raw streams. -/
theorem chooseFoldLine_reals (b : SheetGeometry) (strat : ℕ) (s : RandState) :
    ((chooseFoldLine b strat s).2).reals = s.reals := by
  rw [chooseFoldLine]
  split_ifs <;> rfl

/-- The fold branch never changes the raw streams. -/
theorem attemptFold_reals (i : ℕ) (sheets : List SheetGeometry) (s : RandState) :
    ((attemptFold i sheets s).2).reals = s.reals := by
  simp only [attemptFold]
  split_ifs <;> exact (chooseFoldLine_reals _ _ _).trans rfl

/-- A sheet attempt never changes the raw streams. -/
theorem attemptSheet_reals (i : ℕ) (sheets : List SheetGeometry) (s : RandState) :
    ((attemptSheet i sheets s).2).reals = s.reals := by
  simp only [attemptSheet]
  split_ifs <;> first | rfl | exact attemptFold_reals _ _ _

/-- Unfolding a retry loop over a failing first attempt. -/
theorem retryLoop_succ_none {α : Type} (attempt : RandState → Option α × RandState)
    (m : ℕ) (s s1 : RandState) (hA : attempt s = (none, s1)) :
    retryLoop attempt (m + 1) s =
      ((retryLoop attempt m s1).1, (retryLoop attempt m s1).2.1,
       (retryLoop attempt m s1).2.2 + 1) := by
  rw [retryLoop, hA]

/-- A retry loop never changes the raw streams of its final state. -/
theorem retryLoop_reals {α : Type} (attempt : RandState → Option α × RandState)
    (hp : ∀ s, ((attempt s).2).reals = s.reals) :
    ∀ (n : ℕ) (s : RandState), ((retryLoop attempt n s).2.1).reals = s.reals := by
  intro n
  induction n with
  | zero => intro s; rfl
  | succ m ih =>
    intro s
    rcases hA : attempt s with ⟨o, s1⟩
    have hs1 : s1.reals = s.reals := by rw [← hp s, hA]
    cases o with
    | some a =>
      rw [retryLoop_first_success attempt m s a s1 hA]
      exact hs1
    | none =>
      rw [retryLoop_succ_none attempt m s s1 hA]
      exact (ih s1).trans hs1

/-- A successful retry loop succeeded on one of its attempts, run from a
state with the same raw streams as the loop's starting state. -/
theorem retryLoop_some_inv {α : Type} (attempt : RandState → Option α × RandState)
    (hp : ∀ s, ((attempt s).2).reals = s.reals) :
    ∀ (n : ℕ) (s : RandState) (a : α) (s1 : RandState) (c : ℕ),
      retryLoop attempt n s = (some a, s1, c) →
      ∃ s0 : RandState, s0.reals = s.reals ∧ (attempt s0).1 = some a := by
  intro n
  induction n with
  | zero =>
    intro s a s1 c h
    simp [retryLoop] at h
  | succ m ih =>
    intro s a s1 c h
    rcases hA : attempt s with ⟨o, s2⟩
    have hs2 : s2.reals = s.reals := by rw [← hp s, hA]
    cases o with
    | some b =>
      rw [retryLoop_first_success attempt m s b s2 hA] at h
      simp only [Prod.mk.injEq, Option.some.injEq] at h
      exact ⟨s, rfl, by rw [hA, h.1]⟩
    | none =>
      rw [retryLoop_succ_none attempt m s s2 hA] at h
      rcases hB : retryLoop attempt m s2 with ⟨r, s3, c3⟩
      rw [hB] at h
      simp only [Prod.mk.injEq] at h
      obtain ⟨s0, hs0, hatt⟩ := ih s2 a s3 c3 (by rw [hB, h.1])
      exact ⟨s0, hs0.trans hs2, hatt⟩

/-- Looking a sheet up by index yields a sheet with good radii whenever the
whole collection has good radii (the default sentinel has no circles). -/
theorem getD_good : ∀ (sheets : List SheetGeometry) (k : ℕ),
    (∀ t ∈ sheets, GoodRadii t) → GoodRadii (sheets.getD k emptyGeom)
  | [], _, _ => by
    intro c hc
    simp [List.getD, emptyGeom] at hc
  | a :: l, 0, hs => hs a (by simp)
  | a :: l, k + 1, hs => by
    rw [List.getD_cons_succ]
    exact getD_good l k fun t ht => hs t (by simp [ht])

/-- Folding preserves good radii: each reflected circle keeps its radius. -/
theorem foldGeometry_good (b : SheetGeometry) (fl : Line) (hb : GoodRadii b) :
    GoodRadii (foldGeometry b fl) := by
  intro c hc
  simp only [foldGeometry, List.mem_append, List.mem_map] at hc
  rcases hc with hc | ⟨c0, hc0, rfl⟩
  · exact hb c hc
  · exact hb c0 hc0

/-- A fresh circle's radius comes from `size_dist` over `[1, 5)`. -/
theorem buildCircle_good (s : RandState)
    (hu : ∀ n, 0 ≤ s.reals n ∧ s.reals n < 1) :
    GoodRadii (buildCircle s).1 := by
  intro c hc
  simp only [buildCircle, drawReal, nextReal, List.mem_singleton] at hc
  subst hc
  have h1 := hu (s.rpos + 1 + 1)
  constructor
  · show (1 : ℝ) ≤ 1 + (5 - 1) * s.reals (s.rpos + 1 + 1)
    nlinarith [h1.1, h1.2]
  · show 1 + (5 - 1) * s.reals (s.rpos + 1 + 1) ≤ 5
    nlinarith [h1.1, h1.2]

/-- A committed fold has good radii whenever the sheet collection does. -/
theorem attemptFold_good (i : ℕ) (sheets : List SheetGeometry) (s : RandState)
    (hsheets : ∀ t ∈ sheets, GoodRadii t) (g : SheetGeometry) (rcd : OutLine)
    (h : (attemptFold i sheets s).1 = some (g, rcd)) : GoodRadii g := by
  simp only [attemptFold] at h
  split_ifs at h
  simp only [Option.some.injEq, Prod.mk.injEq] at h
  rw [← h.1]
  exact foldGeometry_good _ _ (getD_good sheets _ hsheets)

/-- Any sheet committed by one attempt has good radii, given unit raw real
draws and good radii on the existing collection. -/
theorem attemptSheet_good (i : ℕ) (sheets : List SheetGeometry) (s : RandState)
    (hu : ∀ n, 0 ≤ s.reals n ∧ s.reals n < 1)
    (hsheets : ∀ t ∈ sheets, GoodRadii t) (g : SheetGeometry) (rcd : OutLine)
    (h : (attemptSheet i sheets s).1 = some (g, rcd)) : GoodRadii g := by
  simp only [attemptSheet] at h
  split_ifs at h <;>
    first
      | (simp only [Option.some.injEq, Prod.mk.injEq] at h
         rw [← h.1]
         intro c hc
         simp [buildRect] at hc)
      | (simp only [Option.some.injEq, Prod.mk.injEq] at h
         rw [← h.1]
         exact buildCircle_good _ hu)
      | exact attemptFold_good i sheets _ hsheets g rcd h

/-- The sheet loop preserves good radii across all committed sheets. -/
theorem generateSheetsAux_good :
    ∀ (m : ℕ) (sheets : List SheetGeometry) (file : List OutLine)
      (s : RandState) (sheets1 : List SheetGeometry) (s1 : RandState)
      (file1 : List OutLine),
      (∀ n, 0 ≤ s.reals n ∧ s.reals n < 1) →
      (∀ t ∈ sheets, GoodRadii t) →
      generateSheetsAux m sheets file s = (some (sheets1, s1), file1) →
      ∀ t ∈ sheets1, GoodRadii t := by
  intro m
  induction m with
  | zero =>
    intro sheets file s sheets1 s1 file1 hu hsheets h
    simp only [generateSheetsAux, Prod.mk.injEq, Option.some.injEq] at h
    rw [← h.1.1]
    exact hsheets
  | succ k ih =>
    intro sheets file s sheets1 s1 file1 hu hsheets h
    rw [generateSheetsAux] at h
    rcases hB : retryLoop (attemptSheet sheets.length sheets) MAX_TRIES s
      with ⟨o, s2, c⟩
    rw [hB] at h
    cases o with
    | none => simp at h
    | some gr =>
      obtain ⟨g, rcd⟩ := gr
      simp only at h
      have hreals : s2.reals = s.reals := by
        have hr := retryLoop_reals (attemptSheet sheets.length sheets)
          (attemptSheet_reals sheets.length sheets) MAX_TRIES s
        rw [hB] at hr
        exact hr
      obtain ⟨s0, hs0, hatt⟩ := retryLoop_some_inv
        (attemptSheet sheets.length sheets)
        (attemptSheet_reals sheets.length sheets) MAX_TRIES s (g, rcd) s2 c hB
      have hg : GoodRadii g := attemptSheet_good sheets.length sheets s0
        (by rw [hs0]; exact hu) hsheets g rcd hatt
      refine ih (sheets ++ [g]) (file ++ [rcd]) s2 sheets1 s1 file1
        (by rw [hreals]; exact hu) ?_ h
      intro t ht
      rcases List.mem_append.mp ht with ht | ht
      · exact hsheets t ht
      · simp only [List.mem_singleton] at ht
        subst ht
        exact hg

/-- C9: every circle stored in any committed sheet has radius in the closed
interval `[1, 5]` — in particular strictly greater than `DANGER_EPS` —
given that the engine's raw real draws lie in `[0, 1)`: fresh circles draw
their radius from `size_dist` over `[1, 5)`, and folding copies each circle
with its radius unchanged. -/
theorem circle_radius_invariant (n q : ℕ) (s : RandState) (hu : UnitReals s)
    (sheets1 : List SheetGeometry) (s1 : RandState) (file1 : List OutLine)
    (h : generateSheetsAux n [emptyGeom] [OutLine.header n q] s =
      (some (sheets1, s1), file1)) :
    ∀ t ∈ sheets1, ∀ c ∈ t.circles, 1 ≤ c.r ∧ c.r ≤ 5 ∧ DANGER_EPS < c.r := by
  have hgood := generateSheetsAux_good n [emptyGeom] [OutLine.header n q] s
    sheets1 s1 file1 hu
    (by
      intro t ht
      simp only [List.mem_singleton] at ht
      subst ht
      intro c hc
      simp [emptyGeom] at hc) h
  intro t ht c hc
  obtain ⟨h1, h2⟩ := hgood t ht c hc
  refine ⟨h1, h2, lt_of_lt_of_le ?_ h1⟩
  norm_num [DANGER_EPS]

/-- Under `circleState` the first sheet attempt commits the circle of
radius `3` centered at the origin on its first try. -/
theorem attemptSheet_first_circle :
    attemptSheet 1 [emptyGeom] circleState =
      (some (⟨[⟨0, 0⟩], [], [⟨⟨0, 0⟩, 3⟩]⟩, OutLine.circ 0 0 3),
       ⟨fun _ => 1, fun _ => 1 / 2, 1, 3⟩) := by
  simp only [attemptSheet, nextInt, circleState, buildCircle, drawReal, nextReal]
  norm_num

/-- Evaluation of a one-sheet generation run committing the circle. -/
theorem generateSheets_circle_run :
    generateSheetsAux 1 [emptyGeom] [OutLine.header 1 1] circleState =
      (some ([emptyGeom, ⟨[⟨0, 0⟩], [], [⟨⟨0, 0⟩, 3⟩]⟩],
             ⟨fun _ => 1, fun _ => 1 / 2, 1, 3⟩),
       [OutLine.header 1 1, OutLine.circ 0 0 3]) := by
  show generateSheetsAux (0 + 1) [emptyGeom] [OutLine.header 1 1] circleState = _
  rw [generateSheetsAux]
  simp only [List.length_cons, List.length_nil, Nat.zero_add]
  rw [show MAX_TRIES = 99 + 1 from rfl,
    retryLoop_first_success _ 99 _ _ _ attemptSheet_first_circle]
  simp [generateSheetsAux]

/-- C9 witness: the one-circle run instantiates the radius invariant, with
the committed circle's radius `3` inside `[1, 5]` and above `DANGER_EPS`. -/
theorem circle_radius_invariant_witness :
    UnitReals circleState ∧
    (∀ t ∈ [emptyGeom, (⟨[⟨0, 0⟩], [], [⟨⟨0, 0⟩, 3⟩]⟩ : SheetGeometry)],
      ∀ c ∈ t.circles, 1 ≤ c.r ∧ c.r ≤ 5 ∧ DANGER_EPS < c.r) := by
  have hu : UnitReals circleState := by
    intro n
    constructor <;> norm_num [circleState]
  exact ⟨hu, circle_radius_invariant 1 1 circleState hu _ _ _
    generateSheets_circle_run⟩

/-- A retry loop that returns no result made exactly as many attempts as
its budget: each failed attempt counts one, and only exhaustion yields
`none`. -/
theorem retryLoop_none_count {α : Type} (attempt : RandState → Option α × RandState) :
    ∀ (n : ℕ) (s : RandState), (retryLoop attempt n s).1 = none →
      (retryLoop attempt n s).2.2 = n := by
  intro n
  induction n with
  | zero => intro s _; rfl
  | succ m ih =>
    intro s h
    rcases hA : attempt s with ⟨o, s1⟩
    cases o with
    | some a =>
      rw [retryLoop_first_success attempt m s a s1 hA] at h
      simp at h
    | none =>
      rw [retryLoop_succ_none attempt m s s1 hA] at h ⊢
      simp only at h ⊢
      rw [ih s1 h]

/-- When the retry loop for the next sheet exhausts its budget, the sheet
stage fails at once, keeping exactly the content written so far. -/
theorem generateSheetsAux_exhaust (m : ℕ) (sheets : List SheetGeometry)
    (file : List OutLine) (s : RandState)
    (h : (retryLoop (attemptSheet sheets.length sheets) MAX_TRIES s).1 = none) :
    generateSheetsAux (m + 1) sheets file s = (none, file) := by
  rw [generateSheetsAux]
  rcases hB : retryLoop (attemptSheet sheets.length sheets) MAX_TRIES s
    with ⟨o, s2, c⟩
  rw [hB] at h
  simp only at h
  subst h
  rfl

/-- When the retry loop for the next query exhausts its budget, the query
stage fails at once, keeping exactly the content written so far. -/
theorem generateQueriesAux_exhaust (n : ℕ) (sheets : List SheetGeometry)
    (m : ℕ) (file : List OutLine) (s : RandState)
    (h : (retryLoop (attemptQuery n sheets) MAX_TRIES s).1 = none) :
    generateQueriesAux n sheets (m + 1) file s = (none, file) := by
  rw [generateQueriesAux]
  rcases hB : retryLoop (attemptQuery n sheets) MAX_TRIES s with ⟨o, s2, c⟩
  rw [hB] at h
  simp only at h
  subst h
  rfl

/-- A failed sheet stage makes `generate_test` return `false` with the
content the stage had written. -/
theorem generate_test_sheets_fail (n q : ℕ) (s : RandState)
    (h : (generateSheetsAux n [emptyGeom] [OutLine.header n q] s).1 = none) :
    generate_test n q s =
      (false, (generateSheetsAux n [emptyGeom] [OutLine.header n q] s).2) := by
  rw [generate_test]
  rcases hB : generateSheetsAux n [emptyGeom] [OutLine.header n q] s
    with ⟨o, file⟩
  rw [hB] at h
  simp only at h
  subst h
  rfl

/-- A failed query stage makes `generate_test` return `false` with the
content the stage had written. -/
theorem generate_test_queries_fail (n q : ℕ) (s : RandState)
    (sheets : List SheetGeometry) (s1 : RandState) (file : List OutLine)
    (hs : generateSheetsAux n [emptyGeom] [OutLine.header n q] s =
      (some (sheets, s1), file))
    (hq : (generateQueriesAux n sheets q file s1).1 = none) :
    generate_test n q s =
      (false, (generateQueriesAux n sheets q file s1).2) := by
  simp only [generate_test, hs]
  rcases hB : generateQueriesAux n sheets q file s1 with ⟨o, file1⟩
  rw [hB] at hq
  simp only at hq
  subst hq
  rfl

/-- Under `mixedState` the first sheet attempt commits `circleSheet` on its
first try. -/
theorem attemptSheet_mixed_circle :
    attemptSheet 1 [emptyGeom] mixedState =
      (some (circleSheet, OutLine.circ 0 0 3),
       ⟨fun _ => 3, mixedReals, 1, 3⟩) := by
  simp only [attemptSheet, nextInt, mixedState, mixedReals, buildCircle,
    drawReal, nextReal, circleSheet]
  norm_num

/-- Evaluation of the sheet stage of the query-exhaustion scenario. -/
theorem generateSheets_mixed_run :
    generateSheetsAux 1 [emptyGeom] [OutLine.header 1 1] mixedState =
      (some ([emptyGeom, circleSheet], ⟨fun _ => 3, mixedReals, 1, 3⟩),
       [OutLine.header 1 1, OutLine.circ 0 0 3]) := by
  show generateSheetsAux (0 + 1) [emptyGeom] [OutLine.header 1 1] mixedState = _
  rw [generateSheetsAux]
  simp only [List.length_cons, List.length_nil, Nat.zero_add]
  rw [show MAX_TRIES = 99 + 1 from rfl,
    retryLoop_first_success _ 99 _ _ _ attemptSheet_mixed_circle]
  simp [generateSheetsAux]

open Classical in
/-- Under the `mixedReals` stream, every query attempt against
`circleSheet` draws the point `(1/100, 0)` — at distance `1/100` from the
stored center point, inside the ambiguous band — and is rejected. -/
theorem attemptQuery_fail_step (a b : ℕ) (hb3 : 3 ≤ b) (hb : b % 2 = 1) :
    attemptQuery 1 [emptyGeom, circleSheet] ⟨fun _ => 3, mixedReals, a, b⟩ =
      (none, ⟨fun _ => 3, mixedReals, a + 2, b + 2⟩) := by
  have hrx : mixedReals b = 1001 / 2000 := by
    simp only [mixedReals]
    rw [if_neg (by omega), if_pos hb]
  have hry : mixedReals (b + 1) = 1 / 2 := by
    simp only [mixedReals]
    rw [if_neg (by omega), if_neg (by omega)]
  have hd : dist ⟨(1 : ℝ) / 100, 0⟩ ⟨0, 0⟩ = 1 / 100 := by
    rw [dist]
    rw [show distSq ⟨(1 : ℝ) / 100, 0⟩ ⟨0, 0⟩ = (1 / 100 : ℝ) * (1 / 100) from
      by norm_num [distSq]]
    rw [Real.sqrt_mul_self (by norm_num)]
  have hunsafe : ¬ isSafePoint ⟨1 / 100, 0⟩ circleSheet := by
    rintro ⟨h1, -, -⟩
    exact h1 ⟨0, 0⟩ (by simp [circleSheet])
      ⟨by rw [hd]; norm_num [ZERO_TOLERANCE],
       by rw [hd]; norm_num [DANGER_EPS]⟩
  have hqp : chooseQueryPoint circleSheet 0 ⟨fun _ => 3, mixedReals, a + 2, b⟩ =
      (⟨1 / 100, 0⟩, ⟨fun _ => 3, mixedReals, a + 2, b + 2⟩) := by
    rw [chooseQueryPoint, if_pos (Or.inl rfl)]
    simp only [randomPoint, drawReal, nextReal]
    rw [hrx, hry]
    norm_num [Nat.add_assoc]
  have hqp2 : chooseQueryPoint
      ([emptyGeom, circleSheet].getD (1 + 3 % (1 + 1 - 1)) emptyGeom)
      (0 + 3 % (2 + 1 - 0))
      ⟨fun _ => 3, mixedReals, a + 1 + 1, b⟩ =
      (⟨1 / 100, 0⟩, ⟨fun _ => 3, mixedReals, a + 2, b + 2⟩) := hqp
  simp only [attemptQuery, drawIntRange, nextInt]
  norm_num [Nat.add_assoc]
  rw [hqp]
  simp only [hqp2]
  rw [if_neg hunsafe]

/-- From any state over the `mixedState` streams whose real position is at
least `3` and odd, the query retry loop exhausts its whole budget. -/
theorem query_loop_all_fail (s : RandState) (hi : s.ints = fun _ => 3)
    (hr : s.reals = mixedReals) (h3 : 3 ≤ s.rpos) (hodd : s.rpos % 2 = 1) :
    (retryLoop (attemptQuery 1 [emptyGeom, circleSheet]) MAX_TRIES s).1 =
      none ∧
    (retryLoop (attemptQuery 1 [emptyGeom, circleSheet]) MAX_TRIES s).2.2 =
      MAX_TRIES := by
  have e := retryLoop_all_fail (attemptQuery 1 [emptyGeom, circleSheet])
    (fun s => (s.ints = fun _ => 3) ∧ s.reals = mixedReals ∧
      3 ≤ s.rpos ∧ s.rpos % 2 = 1)
    (fun s hs => by
      obtain ⟨si, sr, sa, sb⟩ := s
      simp only at hs
      obtain ⟨hs1, hs2, hs3, hs4⟩ := hs
      rw [hs1, hs2]
      rw [attemptQuery_fail_step sa sb hs3 hs4]
      exact ⟨rfl, rfl, rfl, show 3 ≤ sb + 2 by omega,
        show (sb + 2) % 2 = 1 by omega⟩)
    MAX_TRIES s ⟨hi, hr, h3, hodd⟩
  exact ⟨e.1, e.2.1⟩

/-- C6 as amended: whenever a per-sheet or per-query retry loop exhausts
all `MAX_TRIES` attempts without an accepted candidate, the failing loop
has run exactly `MAX_TRIES` attempts, the enclosing stage fails at once
keeping exactly the content written so far, and `generate_test` returns
`false` with that partial content still at the sink (the caller must
discard it); the `n = 3` scenario with every fold attempt rejected
instantiates this with the header and the sheet-1 record kept. -/
theorem generate_test_retry_exhaustion :
    (∀ (α : Type) (attempt : RandState → Option α × RandState) (s : RandState),
      (retryLoop attempt MAX_TRIES s).1 = none →
      (retryLoop attempt MAX_TRIES s).2.2 = MAX_TRIES) ∧
    (∀ (m : ℕ) (sheets : List SheetGeometry) (file : List OutLine)
        (s : RandState),
      (retryLoop (attemptSheet sheets.length sheets) MAX_TRIES s).1 = none →
      generateSheetsAux (m + 1) sheets file s = (none, file)) ∧
    (∀ (n q : ℕ) (s : RandState),
      (generateSheetsAux n [emptyGeom] [OutLine.header n q] s).1 = none →
      generate_test n q s =
        (false, (generateSheetsAux n [emptyGeom] [OutLine.header n q] s).2)) ∧
    (∀ (n : ℕ) (sheets : List SheetGeometry) (m : ℕ) (file : List OutLine)
        (s : RandState),
      (retryLoop (attemptQuery n sheets) MAX_TRIES s).1 = none →
      generateQueriesAux n sheets (m + 1) file s = (none, file)) ∧
    (∀ (n q : ℕ) (s : RandState) (sheets : List SheetGeometry)
        (s1 : RandState) (file : List OutLine),
      generateSheetsAux n [emptyGeom] [OutLine.header n q] s =
        (some (sheets, s1), file) →
      (generateQueriesAux n sheets q file s1).1 = none →
      generate_test n q s =
        (false, (generateQueriesAux n sheets q file s1).2)) ∧
    generate_test 3 3 failState =
      (false, [OutLine.header 3 3, OutLine.rect 0 0 3 3]) :=
  ⟨fun _ attempt s h => retryLoop_none_count attempt MAX_TRIES s h,
   generateSheetsAux_exhaust, generate_test_sheets_fail,
   generateQueriesAux_exhaust, generate_test_queries_fail,
   generate_test_fail_eval⟩

/-- C6 witness: the retry-exhaustion conditionals instantiated on concrete
scenarios — the `failState` run whose sheet-2 fold loop exhausts (exactly
`MAX_TRIES` attempts, partial content kept), and the `mixedState` run whose
query loop exhausts after its circle sheet is committed. -/
theorem generate_test_retry_exhaustion_witness :
    (retryLoop (attemptSheet 2 [emptyGeom, demoRect]) MAX_TRIES
      failState1).2.2 = MAX_TRIES ∧
    generateSheetsAux 2 [emptyGeom, demoRect]
      [OutLine.header 3 3, OutLine.rect 0 0 3 3] failState1 =
      (none, [OutLine.header 3 3, OutLine.rect 0 0 3 3]) ∧
    generate_test 3 3 failState =
      (false, (generateSheetsAux 3 [emptyGeom] [OutLine.header 3 3]
        failState).2) ∧
    generateQueriesAux 1 [emptyGeom, circleSheet] 1 []
      ⟨fun _ => 3, mixedReals, 1, 3⟩ = (none, []) ∧
    generate_test 1 1 mixedState =
      (false, (generateQueriesAux 1 [emptyGeom, circleSheet] 1
        [OutLine.header 1 1, OutLine.circ 0 0 3]
        ⟨fun _ => 3, mixedReals, 1, 3⟩).2) := by
  have hsheet := (sheet2_loop_all_fail failState1 rfl rfl).1
  have hq := (query_loop_all_fail ⟨fun _ => 3, mixedReals, 1, 3⟩ rfl rfl
    (by norm_num) rfl).1
  have hqex := generate_test_retry_exhaustion.2.2.2.1 1 [emptyGeom, circleSheet]
    0 [OutLine.header 1 1, OutLine.circ 0 0 3]
    ⟨fun _ => 3, mixedReals, 1, 3⟩ hq
  exact ⟨generate_test_retry_exhaustion.1 _ _ failState1 hsheet,
    generate_test_retry_exhaustion.2.1 1 [emptyGeom, demoRect]
      [OutLine.header 3 3, OutLine.rect 0 0 3 3] failState1 hsheet,
    generate_test_retry_exhaustion.2.2.1 3 3 failState
      (by rw [generateSheets_fail_run]),
    generate_test_retry_exhaustion.2.2.2.1 1 [emptyGeom, circleSheet] 0 []
      ⟨fun _ => 3, mixedReals, 1, 3⟩ hq,
    generate_test_retry_exhaustion.2.2.2.2.1 1 1 mixedState
      [emptyGeom, circleSheet] ⟨fun _ => 3, mixedReals, 1, 3⟩
      [OutLine.header 1 1, OutLine.circ 0 0 3] generateSheets_mixed_run
      (by rw [hqex])⟩

end Origami
